import Mathlib

/-!
Verification of the physics and collision subsystem of `super-arya-world`
(`src/scripts/engine/physics.js`), as a shallow embedding in Lean 4.

Modelling conventions:
* JS numbers are modelled as exact rationals (`ℚ`); all the claims under
  study are about order/arithmetic relations that the JS code computes
  with `<`, `min`, `max`, `+`, `*`, `/` on ordinary magnitudes.
* A collider object is a `Collider` record.  The engine's three arrays
  `colliders`, `staticColliders` and `dynamicColliders` always partition
  the same objects by their `isStatic` flag (the flag is set once in
  `addCollider` and never written afterwards), so the state is modelled
  as the single list `colliders`; the two partitions are the sublists
  selected by `isStatic`, which preserves both membership and relative
  order of the JS arrays.  Object identity (`===`, `indexOf`) is
  modelled by the `id` field, and position in the list stands for the
  object's identity inside one `update` pass.
* `onCollision` callbacks are not modelled as mutating code (the engine
  guarantees nothing about their bodies); instead `update` returns, next
  to the new collider list, the list of `CollisionEvent`s, one per
  detected-and-resolved pair, recording which callbacks fired and the
  state both bodies were in at the moment the callbacks were invoked.
-/

/-- A physics collider, mirroring the fields `Physics.addCollider`
initialises and `Physics.update` reads and writes
(`src/scripts/engine/physics.js`). -/
structure Collider where
  id : Nat
  x : ℚ
  y : ℚ
  width : ℚ
  height : ℚ
  velocityX : ℚ
  velocityY : ℚ
  prevX : ℚ
  prevY : ℚ
  affectedByGravity : Bool
  isStatic : Bool
  collisionLayer : Nat
  collisionMask : Nat
  active : Bool
  onGround : Bool
deriving Repr, DecidableEq

/-- The configuration read in the `Physics` constructor:
`gravity` (default 0.5), `friction` (default 0.8),
`terminalVelocity` (default 10). -/
structure PhysConfig where
  gravity : ℚ
  friction : ℚ
  terminalVelocity : ℚ
deriving Repr, DecidableEq

/-- The layer/mask gate `collider.collisionMask & other.collisionLayer`
(a JS bitwise AND tested for truthiness, i.e. non-zero). -/
def maskGate (a b : Collider) : Bool :=
  Nat.land a.collisionMask b.collisionLayer != 0

/-- `Physics.checkCollision` (physics.js lines 195-203): strict AABB
overlap test. -/
def checkCollision (a b : Collider) : Bool :=
  decide (a.x < b.x + b.width) && decide (a.x + a.width > b.x) &&
  decide (a.y < b.y + b.height) && decide (a.y + a.height > b.y)

/-- `Physics.resolveCollision` (physics.js lines 210-244): push the
dynamic body `a` out of `b` along the axis of smaller overlap
(`overlapX < overlapY` strictly resolves X, otherwise Y); X resolution
bounces `velocityX` at half speed, Y resolution zeroes `velocityY` and
sets `onGround` when `a` came from above.  Only `a` is written. -/
def resolveCollision (a b : Collider) : Collider :=
  let overlapX := min (a.x + a.width - b.x) (b.x + b.width - a.x)
  let overlapY := min (a.y + a.height - b.y) (b.y + b.height - a.y)
  if overlapX < overlapY then
    let a1 := if a.x < b.x then { a with x := b.x - a.width }
              else { a with x := b.x + b.width }
    { a1 with velocityX := -a1.velocityX * (1/2) }
  else
    if a.y < b.y then
      { a with y := b.y - a.height, onGround := true, velocityY := 0 }
    else
      { a with y := b.y + b.height, velocityY := 0 }

/-- `Physics.checkGrounded` (physics.js lines 252-262): the collider's
bottom edge is within 1 unit of the ground's top edge and the horizontal
extents strictly overlap. -/
def checkGrounded (c g : Collider) : Bool :=
  decide (|c.y + c.height - g.y| ≤ 1) &&
  decide (c.x < g.x + g.width) && decide (c.x + c.width > g.x)

/-- `Physics.applyGravity` (physics.js lines 269-283): a grounded body
not moving upward gets `velocityY = 0`; otherwise gravity accumulates
and `velocityY` is capped at `terminalVelocity` from above. -/
def applyGravity (cfg : PhysConfig) (dt : ℚ) (c : Collider) : Collider :=
  if c.onGround && decide (c.velocityY ≥ 0) then
    { c with velocityY := 0 }
  else
    let v := c.velocityY + cfg.gravity * dt
    if v > cfg.terminalVelocity then { c with velocityY := cfg.terminalVelocity }
    else { c with velocityY := v }

/-- `Physics.applyFriction` (physics.js lines 290-297): if the current
`|velocityX|` exceeds 0.01 it is scaled by the friction coefficient,
otherwise it is set to exactly 0.  (The `deltaTime` parameter of the JS
function is unused there.) -/
def applyFriction (cfg : PhysConfig) (c : Collider) : Collider :=
  if |c.velocityX| > 1/100 then
    { c with velocityX := c.velocityX * cfg.friction }
  else
    { c with velocityX := 0 }

/-- The defaulting performed by `Physics.addCollider`
(physics.js lines 141-150) on the collider record it stores:
`collisionLayer || DEFAULT` and `collisionMask || 0xFFFF` replace a
zero (JS-falsy) bitmask by the default, and `onGround` is always reset
to `false`.  (`velocityX || 0` and `velocityY || 0` are the identity on
rational values; the `!== undefined` defaulting of the boolean fields
has no counterpart on a total record.) -/
def normalizeAdd (c : Collider) : Collider :=
  { c with
    collisionLayer := if c.collisionLayer = 0 then 1 else c.collisionLayer,
    collisionMask := if c.collisionMask = 0 then 65535 else c.collisionMask,
    onGround := false }

/-- `Physics.addCollider` (physics.js lines 141-162): the normalised
collider is appended to the collider list immediately (and to its
static/dynamic partition, here the sublists selected by `isStatic`).
There is no pending queue and no flush operation anywhere in the
engine. -/
def addCollider (cs : List Collider) (c : Collider) : List Collider :=
  cs ++ [normalizeAdd c]

/-- `Physics.removeCollider` (physics.js lines 168-187):
`indexOf` + `splice(index, 1)` removes the first occurrence of the
object (identity modelled by `id`) from the collider list immediately;
absence is a no-op. -/
def removeCollider (cs : List Collider) (c : Collider) : List Collider :=
  cs.eraseP (fun d => d.id == c.id)

/-- The per-body integration prefix of `Physics.update`
(physics.js lines 51-67): record `prevX`/`prevY`, apply gravity when
`affectedByGravity`, apply friction when `onGround`, then advance the
position by `velocity * deltaTime`. -/
def integrate (cfg : PhysConfig) (dt : ℚ) (c : Collider) : Collider :=
  let c1 := { c with prevX := c.x, prevY := c.y }
  let c2 := if c1.affectedByGravity then applyGravity cfg dt c1 else c1
  let c3 := if c2.onGround then applyFriction cfg c2 else c2
  { c3 with x := c3.x + c3.velocityX * dt, y := c3.y + c3.velocityY * dt }

/-- One detected-and-resolved collision, recording the invocation of the
`onCollision` callbacks of both participants (physics.js lines 82-89 and
106-113): `outerIdx`/`innerIdx` are the list positions of the moving
(outer-loop) body and the other body, and `aSnap`/`bSnap` are the
states the two bodies were in when the callbacks fired — i.e. directly
after `resolveCollision`. -/
structure CollisionEvent where
  outerIdx : Nat
  innerIdx : Nat
  aSnap : Collider
  bSnap : Collider
deriving Repr, DecidableEq

/-- One step of an inner collision loop of `Physics.update`: `g`
selects which entries of the indexed collider list this loop visits
(the static partition for lines 69-91, the dynamic partition minus the
body itself for lines 93-115); a visited entry passing the mask gate
and the overlap test resolves the outer body `acc.1` out of it and
fires the two callbacks (recorded as one event). -/
def passStep (i : Nat) (g : Nat × Collider → Bool)
    (acc : Collider × List CollisionEvent) (p : Nat × Collider) :
    Collider × List CollisionEvent :=
  if g p && maskGate acc.1 p.2 && checkCollision acc.1 p.2 then
    let a2 := resolveCollision acc.1 p.2
    (a2, acc.2 ++ [⟨i, p.1, a2, p.2⟩])
  else acc

/-- The inner loop of `Physics.update` over `staticColliders`
(physics.js lines 69-91), for outer body `a` at list position `i`:
fold over the indexed collider list restricted to static entries,
skipping inactive ones. -/
def staticPass (i : Nat) (a : Collider) (ps : List (Nat × Collider)) :
    Collider × List CollisionEvent :=
  ps.foldl (passStep i (fun p => p.2.isStatic && p.2.active)) (a, [])

/-- The inner loop of `Physics.update` over `dynamicColliders`
(physics.js lines 93-115), for outer body `a` at list position `i`:
as `staticPass` but over the dynamic entries, additionally skipping the
body itself (`collider === otherCollider`, i.e. position `i`). -/
def dynamicPass (i : Nat) (a : Collider) (ps : List (Nat × Collider)) :
    Collider × List CollisionEvent :=
  ps.foldl (passStep i (fun p => !p.2.isStatic && (p.1 != i) && p.2.active))
    (a, [])

/-- The grounding classifier loop of `Physics.update`
(physics.js lines 117-133): after resetting `onGround`, the body is
grounded exactly when some active static collider passes the mask gate
and `checkGrounded` (the JS `break` on first success equals `any`). -/
def groundedFlag (a : Collider) (cs : List Collider) : Bool :=
  cs.any (fun s => s.isStatic && s.active && maskGate a s && checkGrounded a s)

/-- One outer-loop iteration of `Physics.update` for the collider at
list position `i`: statics and non-`active` bodies are not visited by
the outer loop (it runs over `dynamicColliders` and `continue`s on
inactive ones); an active dynamic body is integrated, collided against
the statics and then the other dynamics, reclassified for grounding,
and written back at position `i`. -/
def tickOne (cfg : PhysConfig) (dt : ℚ) (cs : List Collider) (i : Nat) :
    List Collider × List CollisionEvent :=
  match cs[i]? with
  | none => (cs, [])
  | some c =>
    if c.isStatic || !c.active then (cs, [])
    else
      let c1 := integrate cfg dt c
      let r1 := staticPass i c1 cs.enum
      let r2 := dynamicPass i r1.1 cs.enum
      let c4 := { r2.1 with onGround := groundedFlag r2.1 cs }
      (cs.set i c4, r1.2 ++ r2.2)

/-- `Physics.update` restricted to the first `k` list positions; the
fold threads the evolving collider list (earlier iterations' writes are
seen by later ones, as with the shared mutable JS objects) and
accumulates the collision events in firing order. -/
def updateUpTo (cfg : PhysConfig) (dt : ℚ) (cs : List Collider) (k : Nat) :
    List Collider × List CollisionEvent :=
  (List.range k).foldl
    (fun acc i =>
      let r := tickOne cfg dt acc.1 i
      (r.1, acc.2 ++ r.2))
    (cs, [])

/-- `Physics.update` (physics.js lines 45-135): every collider position
is visited once, in list order. -/
def update (cfg : PhysConfig) (dt : ℚ) (cs : List Collider) :
    List Collider × List CollisionEvent :=
  updateUpTo cfg dt cs cs.length

/-- `n` consecutive ticks of `Physics.update` with a constant `dt`. -/
def updateN (cfg : PhysConfig) (dt : ℚ) (cs : List Collider) : Nat → List Collider
  | 0 => cs
  | n + 1 => (update cfg dt (updateN cfg dt cs n)).1

/-- The hit record returned by `Physics.raycastCollider`
(physics.js lines 391-402): the collider, the parametric distance along
the (normalised) ray, the world-space hit point and the surface
normal. -/
structure RayHit where
  collider : Collider
  distance : ℚ
  pointX : ℚ
  pointY : ℚ
  normalX : ℚ
  normalY : ℚ
deriving Repr, DecidableEq

/-- `Physics.raycastCollider` (physics.js lines 348-406).  The JS slab
state starts at `tMin = -Infinity`, `tMax = Infinity`; the infinities
are modelled by `Option ℚ` (`none` standing for the infinite initial
value), which after the two axis blocks is `none` exactly when the
corresponding direction component was `0` and the block was skipped.
When `dirX ≠ 0` the X block replaces `tMin`/`tMax` by
`min t1 t2`/`max t1 t2` and sets the X normal by the two sequential
`if`s (the `t2` assignment winning when `t1 = t2`); when `dirY ≠ 0` the
Y block folds the Y interval in and rewrites the normal only when
`tMin` strictly increased (`tMin !== tMinOld`).  A hit needs
`tMax ≥ tMin`, `tMin ≥ 0` and `tMin ≤ maxDistance`, with the JS
comparisons against the infinities preserved (`-Infinity ≥ 0` is false,
`Infinity ≥ t` is true). -/
def raycastCollider (startX startY dirX dirY maxDistance : ℚ)
    (c : Collider) : Option RayHit :=
  let minX := c.x
  let minY := c.y
  let maxX := c.x + c.width
  let maxY := c.y + c.height
  let s1 : Option ℚ × Option ℚ × ℚ :=
    if dirX ≠ 0 then
      let t1 := (minX - startX) / dirX
      let t2 := (maxX - startX) / dirX
      let tLow := min t1 t2
      let nX : ℚ := if tLow = t2 then 1 else if tLow = t1 then -1 else 0
      (some tLow, some (max t1 t2), nX)
    else (none, none, 0)
  let s2 : Option ℚ × Option ℚ × ℚ × ℚ :=
    if dirY ≠ 0 then
      let t1 := (minY - startY) / dirY
      let t2 := (maxY - startY) / dirY
      let tLow := min t1 t2
      let tHigh := max t1 t2
      let tMinNew : ℚ := match s1.1 with
        | none => tLow
        | some v => max v tLow
      let tMaxNew : ℚ := match s1.2.1 with
        | none => tHigh
        | some m => min m tHigh
      if s1.1 ≠ some tMinNew then
        (some tMinNew, some tMaxNew, 0,
          if tMinNew = t2 then 1 else if tMinNew = t1 then -1 else 0)
      else
        (some tMinNew, some tMaxNew, s1.2.2, 0)
    else (s1.1, s1.2.1, s1.2.2, 0)
  match s2.1 with
  | none => none
  | some tMin =>
    let upperOk : Bool := match s2.2.1 with
      | none => true
      | some tMax => decide (tMax ≥ tMin)
    if upperOk && decide (tMin ≥ 0) && decide (tMin ≤ maxDistance) then
      some ⟨c, tMin, startX + dirX * tMin, startY + dirY * tMin,
        s2.2.2.1, s2.2.2.2⟩
    else none

/-- The body loop of `Physics.raycast` (physics.js lines 319-335), after
the direction has been normalised: every active collider passing
`collisionLayer & collisionMask` is tested with `raycastCollider`, and
the strictly closest hit is kept (`hit.distance < closestDistance`, so
the earliest body in the list wins ties).  The surrounding `raycast`
(lines 308-316) only computes `maxDistance = √(dirX² + dirY²)` and the
normalised direction, which for the axis-aligned rays used below is
exact rational arithmetic. -/
def raycastAll (startX startY dirX dirY maxDistance : ℚ)
    (collisionMask : Nat) (cs : List Collider) : Option RayHit :=
  cs.foldl
    (fun best c =>
      if c.active && (Nat.land c.collisionLayer collisionMask != 0) then
        match raycastCollider startX startY dirX dirY maxDistance c with
        | none => best
        | some hit =>
          match best with
          | none => some hit
          | some b => if hit.distance < b.distance then some hit else best
      else best)
    none

/-! ## Basic facts about the resolver and the integrator -/

@[simp] lemma resolveCollision_id (a b : Collider) :
    (resolveCollision a b).id = a.id := by
  simp only [resolveCollision]; split_ifs <;> rfl

@[simp] lemma resolveCollision_width (a b : Collider) :
    (resolveCollision a b).width = a.width := by
  simp only [resolveCollision]; split_ifs <;> rfl

@[simp] lemma resolveCollision_height (a b : Collider) :
    (resolveCollision a b).height = a.height := by
  simp only [resolveCollision]; split_ifs <;> rfl

@[simp] lemma resolveCollision_isStatic (a b : Collider) :
    (resolveCollision a b).isStatic = a.isStatic := by
  simp only [resolveCollision]; split_ifs <;> rfl

@[simp] lemma resolveCollision_active (a b : Collider) :
    (resolveCollision a b).active = a.active := by
  simp only [resolveCollision]; split_ifs <;> rfl

@[simp] lemma resolveCollision_collisionLayer (a b : Collider) :
    (resolveCollision a b).collisionLayer = a.collisionLayer := by
  simp only [resolveCollision]; split_ifs <;> rfl

@[simp] lemma resolveCollision_collisionMask (a b : Collider) :
    (resolveCollision a b).collisionMask = a.collisionMask := by
  simp only [resolveCollision]; split_ifs <;> rfl

@[simp] lemma resolveCollision_affectedByGravity (a b : Collider) :
    (resolveCollision a b).affectedByGravity = a.affectedByGravity := by
  simp only [resolveCollision]; split_ifs <;> rfl

@[simp] lemma maskGate_resolveCollision (a b c : Collider) :
    maskGate (resolveCollision a b) c = maskGate a c := by
  simp [maskGate]

/-- After `resolveCollision`, the moving body is flush against the other
body, so the strict AABB test no longer reports an overlap. -/
lemma checkCollision_resolveCollision (a b : Collider) :
    checkCollision (resolveCollision a b) b = false := by
  simp only [resolveCollision, checkCollision]
  split_ifs with h1 h2 h3 <;>
    simp [sub_add_cancel, lt_irrefl]

/-! ## Fold lemmas for the two inner collision loops -/

lemma passStep_acc (i : Nat) (g : Nat × Collider → Bool) (a : Collider)
    (es : List CollisionEvent) (p : Nat × Collider) :
    passStep i g (a, es) p =
      ((passStep i g (a, []) p).1, es ++ (passStep i g (a, []) p).2) := by
  simp only [passStep]
  split_ifs <;> simp

lemma passFold_acc (i : Nat) (g : Nat × Collider → Bool)
    (ps : List (Nat × Collider)) :
    ∀ (a : Collider) (es : List CollisionEvent),
      ps.foldl (passStep i g) (a, es) =
        ((ps.foldl (passStep i g) (a, [])).1,
          es ++ (ps.foldl (passStep i g) (a, [])).2) := by
  induction ps with
  | nil => intro a es; simp
  | cons p ps ih =>
    intro a es
    simp only [List.foldl_cons]
    rw [passStep_acc i g a es p]
    rcases hp : passStep i g (a, []) p with ⟨a1, es1⟩
    dsimp only
    rw [ih a1 (es ++ es1), ih a1 es1]
    simp

/-- Every event emitted by an inner collision loop comes from an entry
of the visited list that passed the loop's guard, the mask gate and the
overlap test, and records the post-resolution state of the moving
body. -/
lemma passFold_events_mem (i : Nat) (g : Nat × Collider → Bool)
    (ps : List (Nat × Collider)) :
    ∀ (a : Collider) (e : CollisionEvent),
      e ∈ (ps.foldl (passStep i g) (a, [])).2 →
      ∃ a1 p, p ∈ ps ∧ g p = true ∧ maskGate a1 p.2 = true ∧
        checkCollision a1 p.2 = true ∧
        e = ⟨i, p.1, resolveCollision a1 p.2, p.2⟩ := by
  induction ps with
  | nil => intro a e he; simp at he
  | cons p ps ih =>
    intro a e he
    rw [List.foldl_cons] at he
    rcases hp : passStep i g (a, []) p with ⟨a1, es1⟩
    rw [hp, passFold_acc, List.mem_append] at he
    rcases he with he | he
    · simp only [passStep, List.nil_append] at hp
      split_ifs at hp with hcond
      · rcases hp with ⟨rfl, rfl⟩
        simp only [List.mem_singleton] at he
        simp only [Bool.and_eq_true] at hcond
        exact ⟨a, p, List.mem_cons_self p ps, hcond.1.1, hcond.1.2, hcond.2, he⟩
      · rcases hp with ⟨rfl, rfl⟩
        simp at he
    · obtain ⟨a2, q, hq, h1, h2, h3, h4⟩ := ih a1 e he
      exact ⟨a2, q, List.mem_cons_of_mem p hq, h1, h2, h3, h4⟩

/-- The inner-loop indices of the events of one inner collision loop
form a sublist of the indices of the visited list (each entry fires at
most once, in order). -/
lemma passFold_events_inner_sublist (i : Nat) (g : Nat × Collider → Bool)
    (ps : List (Nat × Collider)) :
    ∀ (a : Collider),
      ((ps.foldl (passStep i g) (a, [])).2.map (fun e => e.innerIdx)).Sublist
        (ps.map Prod.fst) := by
  induction ps with
  | nil => intro a; simp
  | cons p ps ih =>
    intro a
    rw [List.foldl_cons]
    rcases hp : passStep i g (a, []) p with ⟨a1, es1⟩
    rw [passFold_acc, List.map_append, List.map_cons]
    simp only [passStep] at hp
    split_ifs at hp with hcond
    · rcases hp with ⟨rfl, rfl⟩
      simpa using List.Sublist.cons₂ p.1 (ih _)
    · rcases hp with ⟨rfl, rfl⟩
      simpa using List.Sublist.cons p.1 (ih a)

/-- The fields of a collider that one `Physics.update` iteration never
writes for the moving body: identity, extent, partition and filtering
flags.  (Only position, velocities, `prevX`/`prevY` and `onGround` are
written.) -/
def sameKind (a b : Collider) : Prop :=
  a.id = b.id ∧ a.width = b.width ∧ a.height = b.height ∧
  a.isStatic = b.isStatic ∧ a.active = b.active ∧
  a.collisionLayer = b.collisionLayer ∧ a.collisionMask = b.collisionMask ∧
  a.affectedByGravity = b.affectedByGravity

lemma sameKind_refl (a : Collider) : sameKind a a := by
  simp [sameKind]

lemma sameKind_trans {a b c : Collider} (h1 : sameKind a b)
    (h2 : sameKind b c) : sameKind a c := by
  obtain ⟨e1, e2, e3, e4, e5, e6, e7, e8⟩ := h1
  obtain ⟨f1, f2, f3, f4, f5, f6, f7, f8⟩ := h2
  exact ⟨e1.trans f1, e2.trans f2, e3.trans f3, e4.trans f4, e5.trans f5,
    e6.trans f6, e7.trans f7, e8.trans f8⟩

lemma sameKind_resolveCollision (a b : Collider) :
    sameKind (resolveCollision a b) a := by
  simp [sameKind]

lemma sameKind_passFold (i : Nat) (g : Nat × Collider → Bool)
    (ps : List (Nat × Collider)) :
    ∀ (a : Collider) (es : List CollisionEvent),
      sameKind (ps.foldl (passStep i g) (a, es)).1 a := by
  induction ps with
  | nil => intro a es; exact sameKind_refl a
  | cons p ps ih =>
    intro a es
    rw [List.foldl_cons]
    rcases hp : passStep i g (a, es) p with ⟨a1, es1⟩
    have h1 : sameKind a1 a := by
      simp only [passStep] at hp
      split_ifs at hp
      · rcases hp with ⟨rfl, rfl⟩
        exact sameKind_resolveCollision a p.2
      · rcases hp with ⟨rfl, rfl⟩
        exact sameKind_refl a
    exact sameKind_trans (ih a1 es1) h1

lemma sameKind_applyGravity (cfg : PhysConfig) (dt : ℚ) (c : Collider) :
    sameKind (applyGravity cfg dt c) c := by
  simp only [sameKind, applyGravity]
  split_ifs <;> simp

lemma sameKind_applyFriction (cfg : PhysConfig) (c : Collider) :
    sameKind (applyFriction cfg c) c := by
  simp only [sameKind, applyFriction]
  split_ifs <;> simp

lemma sameKind_integrate (cfg : PhysConfig) (dt : ℚ) (c : Collider) :
    sameKind (integrate cfg dt c) c := by
  simp only [integrate]
  have step1 : sameKind { c with prevX := c.x, prevY := c.y } c := by
    simp [sameKind]
  set c1 := { c with prevX := c.x, prevY := c.y } with hc1
  have step2 : sameKind (if c1.affectedByGravity then applyGravity cfg dt c1 else c1) c1 := by
    split_ifs
    · exact sameKind_applyGravity cfg dt c1
    · exact sameKind_refl c1
  set c2 := if c1.affectedByGravity then applyGravity cfg dt c1 else c1 with hc2
  have step3 : sameKind (if c2.onGround then applyFriction cfg c2 else c2) c2 := by
    split_ifs
    · exact sameKind_applyFriction cfg c2
    · exact sameKind_refl c2
  set c3 := if c2.onGround then applyFriction cfg c2 else c2 with hc3
  have step4 : sameKind ({ c3 with
      x := c3.x + c3.velocityX * dt,
      y := c3.y + c3.velocityY * dt } : Collider) c3 := by
    simp [sameKind]
  exact sameKind_trans step4 (sameKind_trans step3 (sameKind_trans step2 step1))

/-- integration does not touch `onGround`. -/
lemma integrate_onGround (cfg : PhysConfig) (dt : ℚ) (c : Collider) :
    (integrate cfg dt c).onGround = c.onGround := by
  simp only [integrate, applyGravity, applyFriction]
  split_ifs <;> rfl

/-- The grounding classifier reads only the moving body's mask and
geometry, never its `onGround` flag. -/
lemma groundedFlag_set_onGround (a : Collider) (v : Bool) (cs : List Collider) :
    groundedFlag { a with onGround := v } cs = groundedFlag a cs := rfl

/-! ## Structure of one outer-loop iteration -/

/-- The body written back at position `i` by an active-dynamic
iteration of the outer loop: integration, the two collision passes,
then the grounding reclassification. -/
def tickBody (cfg : PhysConfig) (dt : ℚ) (cs : List Collider) (i : Nat)
    (c : Collider) : Collider :=
  { (dynamicPass i (staticPass i (integrate cfg dt c) cs.enum).1 cs.enum).1 with
    onGround := groundedFlag
      (dynamicPass i (staticPass i (integrate cfg dt c) cs.enum).1 cs.enum).1 cs }

/-- The events fired by an active-dynamic iteration of the outer loop:
static-pass events first, then dynamic-pass events. -/
def tickEvents (cfg : PhysConfig) (dt : ℚ) (cs : List Collider) (i : Nat)
    (c : Collider) : List CollisionEvent :=
  (staticPass i (integrate cfg dt c) cs.enum).2 ++
  (dynamicPass i (staticPass i (integrate cfg dt c) cs.enum).1 cs.enum).2

lemma tickOne_active (cfg : PhysConfig) (dt : ℚ) (cs : List Collider) (i : Nat)
    (c : Collider) (hg : cs[i]? = some c) (hstat : c.isStatic = false)
    (hact : c.active = true) :
    tickOne cfg dt cs i =
      (cs.set i (tickBody cfg dt cs i c), tickEvents cfg dt cs i c) := by
  simp [tickOne, hg, hstat, hact, tickBody, tickEvents]

lemma tickOne_none (cfg : PhysConfig) (dt : ℚ) (cs : List Collider) (i : Nat)
    (hg : cs[i]? = none) : tickOne cfg dt cs i = (cs, []) := by
  simp [tickOne, hg]

lemma tickOne_skip (cfg : PhysConfig) (dt : ℚ) (cs : List Collider) (i : Nat)
    (c : Collider) (hg : cs[i]? = some c)
    (hs : c.isStatic = true ∨ c.active = false) :
    tickOne cfg dt cs i = (cs, []) := by
  rcases hs with hs | hs <;> simp [tickOne, hg, hs]

lemma sameKind_tickBody (cfg : PhysConfig) (dt : ℚ) (cs : List Collider)
    (i : Nat) (c : Collider) : sameKind (tickBody cfg dt cs i c) c := by
  have k1 : sameKind (integrate cfg dt c) c := sameKind_integrate cfg dt c
  have k2 := sameKind_passFold i (fun p => p.2.isStatic && p.2.active)
    cs.enum (integrate cfg dt c) []
  have k3 := sameKind_passFold i
    (fun p => !p.2.isStatic && (p.1 != i) && p.2.active) cs.enum
    (staticPass i (integrate cfg dt c) cs.enum).1 []
  have k4 : sameKind (tickBody cfg dt cs i c)
      (dynamicPass i (staticPass i (integrate cfg dt c) cs.enum).1 cs.enum).1 := by
    simp [tickBody, sameKind]
  exact sameKind_trans k4 (sameKind_trans k3 (sameKind_trans k2 k1))

lemma tickBody_onGround (cfg : PhysConfig) (dt : ℚ) (cs : List Collider)
    (i : Nat) (c : Collider) :
    (tickBody cfg dt cs i c).onGround = groundedFlag (tickBody cfg dt cs i c) cs :=
  rfl

/-- `tickOne` either leaves the list untouched with no events, or the
index holds an active dynamic body and exactly that position is
rewritten. -/
lemma tickOne_cases (cfg : PhysConfig) (dt : ℚ) (cs : List Collider) (i : Nat) :
    tickOne cfg dt cs i = (cs, []) ∨
    ∃ c, cs[i]? = some c ∧ c.isStatic = false ∧ c.active = true ∧
      tickOne cfg dt cs i =
        (cs.set i (tickBody cfg dt cs i c), tickEvents cfg dt cs i c) := by
  rcases hg : cs[i]? with _ | c
  · exact Or.inl (tickOne_none cfg dt cs i hg)
  · rcases hstat : c.isStatic with _ | _
    · rcases hact : c.active with _ | _
      · exact Or.inl (tickOne_skip cfg dt cs i c hg (Or.inr hact))
      · exact Or.inr ⟨c, rfl, hstat, hact, tickOne_active cfg dt cs i c hg hstat hact⟩
    · exact Or.inl (tickOne_skip cfg dt cs i c hg (Or.inl hstat))

lemma tickOne_length (cfg : PhysConfig) (dt : ℚ) (cs : List Collider) (i : Nat) :
    ((tickOne cfg dt cs i).1).length = cs.length := by
  rcases tickOne_cases cfg dt cs i with h | ⟨c, _, _, _, h⟩
  · rw [h]
  · rw [h, List.length_set]

lemma tickOne_getElem?_ne (cfg : PhysConfig) (dt : ℚ) (cs : List Collider)
    (i j : Nat) (h : i ≠ j) :
    ((tickOne cfg dt cs i).1)[j]? = cs[j]? := by
  rcases tickOne_cases cfg dt cs i with h1 | ⟨c, _, _, _, h1⟩
  · rw [h1]
  · rw [h1]
    exact List.getElem?_set_ne h

/-- Every static-pass event fires with post-resolution (separated)
geometry, from the outer body's mask perspective, against a static
entry of the collider list. -/
lemma staticPass_events (i : Nat) (a : Collider) (cs : List Collider) :
    ∀ e ∈ (staticPass i a cs.enum).2,
      e.outerIdx = i ∧ checkCollision e.aSnap e.bSnap = false ∧
      maskGate e.aSnap e.bSnap = true ∧ cs[e.innerIdx]? = some e.bSnap ∧
      e.bSnap.isStatic = true := by
  intro e he
  obtain ⟨a1, p, hp, hguard, hm, _, rfl⟩ :=
    passFold_events_mem i _ cs.enum a e he
  simp only [Bool.and_eq_true] at hguard
  refine ⟨rfl, checkCollision_resolveCollision a1 p.2, ?_, ?_, hguard.1⟩
  · rw [maskGate_resolveCollision]; exact hm
  · exact List.mem_enum_iff_getElem?.mp hp

/-- Every dynamic-pass event fires with post-resolution geometry, from
the outer body's mask perspective, against a dynamic entry of the
collider list other than the outer body itself. -/
lemma dynamicPass_events (i : Nat) (a : Collider) (cs : List Collider) :
    ∀ e ∈ (dynamicPass i a cs.enum).2,
      e.outerIdx = i ∧ checkCollision e.aSnap e.bSnap = false ∧
      maskGate e.aSnap e.bSnap = true ∧ cs[e.innerIdx]? = some e.bSnap ∧
      e.bSnap.isStatic = false ∧ e.innerIdx ≠ i := by
  intro e he
  obtain ⟨a1, p, hp, hguard, hm, _, rfl⟩ :=
    passFold_events_mem i _ cs.enum a e he
  simp only [Bool.and_eq_true, Bool.not_eq_true', bne_iff_ne, ne_eq] at hguard
  refine ⟨rfl, checkCollision_resolveCollision a1 p.2, ?_, ?_, hguard.1.1, hguard.1.2⟩
  · rw [maskGate_resolveCollision]; exact hm
  · exact List.mem_enum_iff_getElem?.mp hp

lemma staticPass_inner_nodup (i : Nat) (a : Collider) (cs : List Collider) :
    ((staticPass i a cs.enum).2.map (fun e => e.innerIdx)).Nodup :=
  (passFold_events_inner_sublist i _ cs.enum a).nodup
    (by simpa using List.nodup_enum_map_fst cs)

lemma dynamicPass_inner_nodup (i : Nat) (a : Collider) (cs : List Collider) :
    ((dynamicPass i a cs.enum).2.map (fun e => e.innerIdx)).Nodup :=
  (passFold_events_inner_sublist i _ cs.enum a).nodup
    (by simpa using List.nodup_enum_map_fst cs)

/-- Within one outer iteration, no inner body is hit twice: the
static-pass and dynamic-pass events have pairwise distinct inner
indices. -/
lemma tickEvents_inner_nodup (cfg : PhysConfig) (dt : ℚ) (cs : List Collider)
    (i : Nat) (c : Collider) :
    ((tickEvents cfg dt cs i c).map (fun e => e.innerIdx)).Nodup := by
  rw [tickEvents, List.map_append]
  refine List.Nodup.append (staticPass_inner_nodup _ _ _)
    (dynamicPass_inner_nodup _ _ _) ?_
  intro j hj1 hj2
  obtain ⟨e1, he1, hje1⟩ := List.mem_map.mp hj1
  obtain ⟨e2, he2, hje2⟩ := List.mem_map.mp hj2
  obtain ⟨_, _, _, hb1, hs1⟩ := staticPass_events _ _ _ e1 he1
  obtain ⟨_, _, _, hb2, hs2, _⟩ := dynamicPass_events _ _ _ e2 he2
  rw [hje1] at hb1
  rw [hje2] at hb2
  rw [hb1] at hb2
  rw [Option.some.injEq] at hb2
  rw [hb2] at hs1
  rw [hs1] at hs2
  exact Bool.true_eq_false.mp hs2

/-- Every event of one outer iteration carries the iteration's index,
fires only after resolution (the snapshots are already separated) and
passes the mask gate from the outer body's side. -/
lemma tickEvents_props (cfg : PhysConfig) (dt : ℚ) (cs : List Collider)
    (i : Nat) (c : Collider) :
    ∀ e ∈ tickEvents cfg dt cs i c,
      e.outerIdx = i ∧ checkCollision e.aSnap e.bSnap = false ∧
      maskGate e.aSnap e.bSnap = true := by
  intro e he
  rw [tickEvents, List.mem_append] at he
  rcases he with he | he
  · obtain ⟨h1, h2, h3, _, _⟩ := staticPass_events _ _ _ e he
    exact ⟨h1, h2, h3⟩
  · obtain ⟨h1, h2, h3, _, _, _⟩ := dynamicPass_events _ _ _ e he
    exact ⟨h1, h2, h3⟩

/-! ## The grounding classifier only sees static entries -/

/-- Two collider lists that agree on their static entries (and on which
positions are static) give the grounding classifier the same verdict:
the classifier's scan skips every dynamic entry. -/
lemma groundedFlag_congr (a : Collider) :
    ∀ (cs cs' : List Collider), cs.length = cs'.length →
    (∀ (j : Nat) (c c' : Collider), cs[j]? = some c → cs'[j]? = some c' →
      c.isStatic = c'.isStatic ∧ (c.isStatic = true → c = c')) →
    groundedFlag a cs = groundedFlag a cs' := by
  intro cs
  induction cs with
  | nil =>
    intro cs' hl _
    cases cs' with
    | nil => rfl
    | cons d ds => simp at hl
  | cons c cs ih =>
    intro cs' hl hrel
    cases cs' with
    | nil => simp at hl
    | cons c' cs2 =>
      have hhead := hrel 0 c c' (by simp) (by simp)
      have htail : groundedFlag a cs = groundedFlag a cs2 := by
        refine ih cs2 (by simpa using hl) ?_
        intro j d d' h1 h2
        exact hrel (j + 1) d d' (by simpa using h1) (by simpa using h2)
      simp only [groundedFlag, List.any_cons] at htail ⊢
      rcases hstat : c.isStatic with _ | _
      · have hstat2 : c'.isStatic = false := by rw [← hhead.1, hstat]
        rw [hstat2]
        simp [htail]
      · have hceq : c = c' := hhead.2 hstat
        rw [← hceq, htail, hstat]

/-! ## The global invariant of one `update` pass over the list -/

/-- After processing the first `k` positions: the length is unchanged;
positions not yet processed are untouched; static and inactive bodies
are never written; and every processed active dynamic body keeps its
kind fields and carries exactly the grounding classifier's verdict,
computed against the (unchanged) static bodies of the initial list. -/
lemma updateUpTo_invariant (cfg : PhysConfig) (dt : ℚ) (cs0 : List Collider) :
    ∀ k : Nat,
      (updateUpTo cfg dt cs0 k).1.length = cs0.length ∧
      (∀ j : Nat, k ≤ j → (updateUpTo cfg dt cs0 k).1[j]? = cs0[j]?) ∧
      (∀ (j : Nat) (c0 : Collider), cs0[j]? = some c0 →
        (c0.isStatic = true ∨ c0.active = false) →
        (updateUpTo cfg dt cs0 k).1[j]? = some c0) ∧
      (∀ (j : Nat) (c0 ck : Collider), j < k → cs0[j]? = some c0 → c0.isStatic = false →
        c0.active = true → (updateUpTo cfg dt cs0 k).1[j]? = some ck →
        sameKind ck c0 ∧ ck.onGround = groundedFlag ck cs0) := by
  intro k
  induction k with
  | zero =>
    have hz : updateUpTo cfg dt cs0 0 = (cs0, []) := by simp [updateUpTo]
    rw [hz]
    exact ⟨rfl, fun j _ => rfl, fun j c0 h _ => h,
      fun j c0 ck hj _ _ _ _ => absurd hj (Nat.not_lt_zero j)⟩
  | succ k ih =>
    obtain ⟨ihLen, ihRest, ihStat, ihDyn⟩ := ih
    have hsucc : (updateUpTo cfg dt cs0 (k + 1)).1 =
        (tickOne cfg dt (updateUpTo cfg dt cs0 k).1 k).1 := by
      simp only [updateUpTo, List.range_succ, List.foldl_append,
        List.foldl_cons, List.foldl_nil]
    set csk := (updateUpTo cfg dt cs0 k).1 with hcsk
    have hcong : ∀ (j : Nat) (c c' : Collider), csk[j]? = some c → cs0[j]? = some c' →
        c.isStatic = c'.isStatic ∧ (c.isStatic = true → c = c') := by
      intro j c c' h1 h2
      by_cases hj : k ≤ j
      · rw [ihRest j hj, h2, Option.some.injEq] at h1
        subst h1
        exact ⟨rfl, fun _ => rfl⟩
      · push_neg at hj
        rcases hstat : c'.isStatic with _ | _
        · rcases hact : c'.active with _ | _
          · have hq := ihStat j c' h2 (Or.inr hact)
            rw [hq, Option.some.injEq] at h1
            subst h1
            exact ⟨hstat, fun _ => rfl⟩
          · obtain ⟨hk, _⟩ := ihDyn j c' c hj h2 hstat hact h1
            obtain ⟨_, _, _, hks, _⟩ := hk
            refine ⟨by rw [hks, hstat], ?_⟩
            intro hcs
            rw [hks, hstat] at hcs
            simp at hcs
        · have hq := ihStat j c' h2 (Or.inl hstat)
          rw [hq, Option.some.injEq] at h1
          subst h1
          exact ⟨hstat, fun _ => rfl⟩
    rcases hk0 : cs0[k]? with _ | c0
    · have hknone : csk[k]? = none := by rw [ihRest k le_rfl, hk0]
      have hstep : (updateUpTo cfg dt cs0 (k + 1)).1 = csk := by
        rw [hsucc, tickOne_none cfg dt csk k hknone]
      rw [hstep]
      refine ⟨ihLen, fun j hj => ihRest j (by omega), ihStat, ?_⟩
      intro j c1 ck hj h1 h2 h3 h4
      rcases Nat.lt_succ_iff_lt_or_eq.mp hj with hj | rfl
      · exact ihDyn j c1 ck hj h1 h2 h3 h4
      · rw [hk0] at h1; cases h1
    · rcases hstat0 : c0.isStatic with _ | _
      · rcases hact0 : c0.active with _ | _
        · -- inactive dynamic body: skipped, list unchanged
          have hkk : csk[k]? = some c0 := by rw [ihRest k le_rfl, hk0]
          have hstep : (updateUpTo cfg dt cs0 (k + 1)).1 = csk := by
            rw [hsucc, tickOne_skip cfg dt csk k c0 hkk (Or.inr hact0)]
          rw [hstep]
          refine ⟨ihLen, fun j hj => ihRest j (by omega), ihStat, ?_⟩
          intro j c1 ck hj h1 h2 h3 h4
          rcases Nat.lt_succ_iff_lt_or_eq.mp hj with hj | rfl
          · exact ihDyn j c1 ck hj h1 h2 h3 h4
          · rw [hk0, Option.some.injEq] at h1
            rw [← h1, hact0] at h3
            simp at h3
        · -- active dynamic body: position k is rewritten with tickBody
          have hkk : csk[k]? = some c0 := by rw [ihRest k le_rfl, hk0]
          have hklt : k < csk.length := by
            rw [ihLen]
            exact (List.getElem?_eq_some.mp hk0).1
          have hstep : (updateUpTo cfg dt cs0 (k + 1)).1 =
              csk.set k (tickBody cfg dt csk k c0) := by
            rw [hsucc, tickOne_active cfg dt csk k c0 hkk hstat0 hact0]
          rw [hstep]
          refine ⟨by rw [List.length_set, ihLen], ?_, ?_, ?_⟩
          · intro j hj
            rw [List.getElem?_set_ne (by omega)]
            exact ihRest j (by omega)
          · intro j c1 h1 h2
            have hjk : j ≠ k := by
              intro h
              rw [h, hk0, Option.some.injEq] at h1
              rcases h2 with h2 | h2
              · rw [← h1, hstat0] at h2; simp at h2
              · rw [← h1, hact0] at h2; simp at h2
            rw [List.getElem?_set_ne (by omega)]
            exact ihStat j c1 h1 h2
          · intro j c1 ck hj h1 h2 h3 h4
            rcases Nat.lt_succ_iff_lt_or_eq.mp hj with hj | rfl
            · rw [List.getElem?_set_ne (by omega)] at h4
              exact ihDyn j c1 ck hj h1 h2 h3 h4
            · rw [hk0, Option.some.injEq] at h1
              rw [List.getElem?_set_eq_of_lt _ hklt, Option.some.injEq] at h4
              have hkind : sameKind ck c1 := by
                rw [← h4, ← h1]
                exact sameKind_tickBody cfg dt csk j c0
              have hground : ck.onGround = groundedFlag ck cs0 := by
                rw [← h4, tickBody_onGround]
                exact groundedFlag_congr _ csk cs0 ihLen hcong
              exact ⟨hkind, hground⟩
      · -- static body: skipped, list unchanged
        have hkk : csk[k]? = some c0 := by rw [ihRest k le_rfl, hk0]
        have hstep : (updateUpTo cfg dt cs0 (k + 1)).1 = csk := by
          rw [hsucc, tickOne_skip cfg dt csk k c0 hkk (Or.inl hstat0)]
        rw [hstep]
        refine ⟨ihLen, fun j hj => ihRest j (by omega), ihStat, ?_⟩
        intro j c1 ck hj h1 h2 h3 h4
        rcases Nat.lt_succ_iff_lt_or_eq.mp hj with hj | rfl
        · exact ihDyn j c1 ck hj h1 h2 h3 h4
        · rw [hk0, Option.some.injEq] at h1
          rw [← h1, hstat0] at h2
          simp at h2

/-- Invariant on the event log: every event fired so far belongs to an
already-processed outer iteration, observes post-resolution (separated)
geometry and passes the mask gate from the outer body's side; and no
ordered pair (outer position, inner position) fires twice. -/
lemma updateUpTo_events (cfg : PhysConfig) (dt : ℚ) (cs0 : List Collider) :
    ∀ k : Nat,
      (∀ e ∈ (updateUpTo cfg dt cs0 k).2, e.outerIdx < k ∧
        checkCollision e.aSnap e.bSnap = false ∧
        maskGate e.aSnap e.bSnap = true) ∧
      ((updateUpTo cfg dt cs0 k).2.map
        (fun e => (e.outerIdx, e.innerIdx))).Nodup := by
  intro k
  induction k with
  | zero =>
    constructor
    · intro e he
      simp [updateUpTo] at he
    · simp [updateUpTo]
  | succ k ih =>
    obtain ⟨ihProp, ihNodup⟩ := ih
    have hsucc2 : (updateUpTo cfg dt cs0 (k + 1)).2 =
        (updateUpTo cfg dt cs0 k).2 ++
        (tickOne cfg dt (updateUpTo cfg dt cs0 k).1 k).2 := by
      simp only [updateUpTo, List.range_succ, List.foldl_append,
        List.foldl_cons, List.foldl_nil]
    set csk := (updateUpTo cfg dt cs0 k).1 with hcsk
    rcases tickOne_cases cfg dt csk k with hc | ⟨c, hg, hstat, hact, hc⟩
    · rw [hsucc2, hc]
      simp only [List.append_nil]
      refine ⟨fun e he => ?_, ihNodup⟩
      obtain ⟨h1, h2, h3⟩ := ihProp e he
      exact ⟨Nat.lt_succ_of_lt h1, h2, h3⟩
    · have hev : (tickOne cfg dt csk k).2 = tickEvents cfg dt csk k c := by
        rw [hc]
      rw [hsucc2, hev]
      constructor
      · intro e he
        rcases List.mem_append.mp he with he | he
        · obtain ⟨h1, h2, h3⟩ := ihProp e he
          exact ⟨Nat.lt_succ_of_lt h1, h2, h3⟩
        · obtain ⟨ho, hsep, hgate⟩ := tickEvents_props cfg dt csk k c e he
          exact ⟨by rw [ho]; exact Nat.lt_succ_self k, hsep, hgate⟩
      · rw [List.map_append]
        refine List.Nodup.append ihNodup ?_ ?_
        · have hmap : (tickEvents cfg dt csk k c).map
              (fun e => (e.outerIdx, e.innerIdx)) =
              ((tickEvents cfg dt csk k c).map (fun e => e.innerIdx)).map
                (fun j => (k, j)) := by
            rw [List.map_map]
            refine List.map_congr_left ?_
            intro e he
            have := (tickEvents_props cfg dt csk k c e he).1
            simp [Function.comp, this]
          rw [hmap]
          refine List.Nodup.map ?_ (tickEvents_inner_nodup cfg dt csk k c)
          intro x y hxy
          simpa using hxy
        · intro x hx1 hx2
          obtain ⟨e1, he1, hxe1⟩ := List.mem_map.mp hx1
          obtain ⟨e2, he2, hxe2⟩ := List.mem_map.mp hx2
          have h1 := (ihProp e1 he1).1
          have h2 := (tickEvents_props cfg dt csk k c e2 he2).1
          rw [← hxe1] at hxe2
          have : e2.outerIdx = e1.outerIdx := by
            have := congrArg Prod.fst hxe2
            simpa using this
          omega

/-! ## Projection facts about the integrator -/

@[simp] lemma applyGravity_velocityX (cfg : PhysConfig) (dt : ℚ) (c : Collider) :
    (applyGravity cfg dt c).velocityX = c.velocityX := by
  simp only [applyGravity]; split_ifs <;> rfl

@[simp] lemma applyGravity_onGround (cfg : PhysConfig) (dt : ℚ) (c : Collider) :
    (applyGravity cfg dt c).onGround = c.onGround := by
  simp only [applyGravity]; split_ifs <;> rfl

@[simp] lemma applyFriction_velocityY (cfg : PhysConfig) (c : Collider) :
    (applyFriction cfg c).velocityY = c.velocityY := by
  simp only [applyFriction]; split_ifs <;> rfl

@[simp] lemma applyFriction_onGround (cfg : PhysConfig) (c : Collider) :
    (applyFriction cfg c).onGround = c.onGround := by
  simp only [applyFriction]; split_ifs <;> rfl

/-- For a body grounded at the start of the tick, the integrator leaves
`velocityX` as the friction rule dictates: scale when the pre-scaling
speed exceeds the 0.01 threshold, zero otherwise. -/
lemma integrate_velocityX_grounded (cfg : PhysConfig) (dt : ℚ) (c : Collider)
    (hground : c.onGround = true) :
    (integrate cfg dt c).velocityX =
      if 1/100 < |c.velocityX| then c.velocityX * cfg.friction else 0 := by
  simp only [integrate]
  set c1 : Collider := { c with prevX := c.x, prevY := c.y } with hc1
  set c2 := if c1.affectedByGravity = true then applyGravity cfg dt c1 else c1 with hc2
  have e3 : c2.velocityX = c.velocityX := by
    rw [hc2]
    split_ifs
    · rw [applyGravity_velocityX]
    · rfl
  have e4 : c2.onGround = true := by
    rw [hc2]
    split_ifs
    · rw [applyGravity_onGround]; exact hground
    · exact hground
  rw [if_pos e4]
  simp only [applyFriction, e3]
  split_ifs <;> rfl

/-- For an airborne gravity-affected body, the integrator adds
`gravity * dt` to `velocityY` and clamps from above at
`terminalVelocity`. -/
lemma integrate_velocityY_freefall (cfg : PhysConfig) (dt : ℚ) (c : Collider)
    (hgrav : c.affectedByGravity = true) (hground : c.onGround = false) :
    (integrate cfg dt c).velocityY =
      min (c.velocityY + cfg.gravity * dt) cfg.terminalVelocity := by
  simp only [integrate]
  set c1 : Collider := { c with prevX := c.x, prevY := c.y } with hc1
  have e1 : c1.affectedByGravity = true := hgrav
  rw [if_pos e1]
  have e3 : (applyGravity cfg dt c1).onGround = false := by
    rw [applyGravity_onGround]; exact hground
  rw [if_neg (by rw [e3]; exact Bool.false_ne_true)]
  simp only [applyGravity, hground, Bool.false_and, Bool.false_eq_true, if_false]
  split_ifs with h
  · exact (min_eq_right (le_of_lt h)).symm
  · exact (min_eq_left (not_lt.mp h)).symm

/-! ## Concrete scenes used by witnesses and counterexamples -/

lemma land_all_default : Nat.land 65535 1 = 1 := by decide

lemma land_default_all : Nat.land 1 65535 = 1 := by decide

/-- The default configuration of the `Physics` constructor:
`gravity = 0.5`, `friction = 0.8`, `terminalVelocity = 10`. -/
def defaultConfig : PhysConfig := ⟨1/2, 4/5, 10⟩

/-- 32×32 dynamic body overlapping `minTransB` by `overlapX = 4`,
`overlapY = 20` (spec §8, minimum-translation test). -/
def minTransA : Collider := ⟨0, 28, 12, 32, 32, 0, 0, 0, 0, true, false, 1, 65535, true, false⟩

/-- 32×32 static body for the minimum-translation test. -/
def minTransB : Collider := ⟨1, 0, 0, 32, 32, 0, 0, 0, 0, false, true, 1, 65535, true, false⟩

/-- Static box `x ∈ [2, 6]`, `y ∈ [0, 32]` for the raycast test. -/
def slabBox : Collider := ⟨7, 2, 0, 4, 32, 0, 0, 0, 0, false, true, 1, 65535, true, false⟩

/-- A zero-width, zero-height body placed strictly inside `boxBody`. -/
def pointBody : Collider := ⟨0, 5, 5, 0, 0, 0, 0, 0, 0, false, false, 1, 65535, true, false⟩

/-- A 10×10 body at the origin. -/
def boxBody : Collider := ⟨1, 0, 0, 10, 10, 0, 0, 0, 0, false, true, 1, 65535, true, false⟩

/-- A zero-width, 10-tall active static body at `x = 5`. -/
def wallBody : Collider := ⟨2, 5, 0, 0, 10, 0, 0, 0, 0, false, true, 1, 65535, true, false⟩

/-- A grounded dynamic body with `|velocityX| = 0.012`, just above the
friction threshold. -/
def slidingBody : Collider := ⟨0, 0, 0, 10, 10, 3/250, 0, 0, 0, true, false, 1, 65535, true, true⟩

/-! ## C4 -/

/-- C4: for every confirmed overlapping pair, `resolveCollision`
corrects the X axis exactly when `overlapX < overlapY` strictly (ties
resolve along Y); on X resolution the dynamic body is placed flush
against the side it approached from (`x = b.x - width` when it came
from the left, `x = b.x + b.width` otherwise), its `y` is untouched and
it ends fully outside the other body; on Y resolution (`overlapX ≥
overlapY`) its `x` is untouched. -/
theorem resolve_min_translation_x (a b : Collider)
    (hoverlap : checkCollision a b = true) :
    (min (a.x + a.width - b.x) (b.x + b.width - a.x) <
        min (a.y + a.height - b.y) (b.y + b.height - a.y) →
      (resolveCollision a b).y = a.y ∧
      (a.x < b.x → (resolveCollision a b).x = b.x - a.width) ∧
      (¬ a.x < b.x → (resolveCollision a b).x = b.x + b.width) ∧
      checkCollision (resolveCollision a b) b = false) ∧
    (¬ min (a.x + a.width - b.x) (b.x + b.width - a.x) <
        min (a.y + a.height - b.y) (b.y + b.height - a.y) →
      (resolveCollision a b).x = a.x ∧
      (a.y < b.y → (resolveCollision a b).y = b.y - a.height) ∧
      (¬ a.y < b.y → (resolveCollision a b).y = b.y + b.height)) := by
  clear hoverlap
  constructor
  · intro hxy
    refine ⟨?_, ?_, ?_, checkCollision_resolveCollision a b⟩
    · simp only [resolveCollision, if_pos hxy]
      split_ifs <;> rfl
    · intro hleft
      simp only [resolveCollision, if_pos hxy, if_pos hleft]
    · intro hright
      simp only [resolveCollision, if_pos hxy, if_neg hright]
  · intro hxy
    refine ⟨?_, ?_, ?_⟩
    · simp only [resolveCollision, if_neg hxy]
      split_ifs <;> rfl
    · intro habove
      simp only [resolveCollision, if_neg hxy, if_pos habove]
    · intro hbelow
      simp only [resolveCollision, if_neg hxy, if_neg hbelow]

/-- C4 witness: the spec's own 32×32 example (`overlapX = 4`,
`overlapY = 20`) is corrected only on X and lands flush on the right
edge of the static body (`x = 32`), with `y` unchanged. -/
theorem resolve_min_translation_x_witness :
    (resolveCollision minTransA minTransB).x = minTransB.x + minTransB.width ∧
    (resolveCollision minTransA minTransB).y = minTransA.y := by
  have h := (resolve_min_translation_x minTransA minTransB
    (by norm_num [checkCollision, minTransA, minTransB])).1
    (by norm_num [minTransA, minTransB])
  exact ⟨h.2.2.1 (by norm_num [minTransA, minTransB]), h.1⟩

/-! ## C6 -/

/-- C6 counterexample: a zero-area body strictly inside a 10×10 box is
reported as overlapping by `checkCollision`, and a zero-width body is
hit by a raycast — refuting the claim that zero-size bodies participate
in no overlap and produce no raycast hit. -/
theorem zero_size_overlap_and_raycast_hit :
    pointBody.width = 0 ∧ pointBody.height = 0 ∧
    checkCollision pointBody boxBody = true ∧
    wallBody.width = 0 ∧
    (raycastAll 0 5 1 0 10 65535 [wallBody]).isSome = true := by
  refine ⟨rfl, rfl, ?_, rfl, ?_⟩
  · norm_num [checkCollision, pointBody, boxBody]
  · norm_num [raycastAll, raycastCollider, wallBody, land_default_all]

/-- C6 (amended): a body with zero width overlaps another body exactly
when its `x` line lies strictly inside the other's horizontal extent
and the vertical intervals strictly overlap (symmetrically for zero
height): zero-size bodies are excluded from overlap only when they sit
on or outside the other body's boundary, not in general. -/
theorem zero_width_overlap_iff (a b : Collider) :
    (a.width = 0 →
      (checkCollision a b = true ↔
        (a.x < b.x + b.width ∧ b.x < a.x ∧
         a.y < b.y + b.height ∧ b.y < a.y + a.height))) ∧
    (a.height = 0 →
      (checkCollision a b = true ↔
        (a.x < b.x + b.width ∧ b.x < a.x + a.width ∧
         a.y < b.y + b.height ∧ b.y < a.y))) := by
  constructor
  · intro hw
    simp [checkCollision, hw, and_assoc]
  · intro hh
    simp [checkCollision, hh, and_assoc]

/-- C6 witness: the zero-area point strictly inside the box satisfies
the amended characterisation, hence overlaps. -/
theorem zero_width_overlap_iff_witness :
    checkCollision pointBody boxBody = true :=
  ((zero_width_overlap_iff pointBody boxBody).1 rfl).mpr
    (by norm_num [pointBody, boxBody])

/-! ## C7 -/

/-- C7 counterexample: with the default friction 0.8 and
`velocityX = 0.012`, the code scales to `0.0096`, which is below the
0.01 threshold yet is NOT snapped to zero — refuting the claim that the
snap test is applied to the post-scaling velocity. -/
theorem friction_no_post_scale_snap :
    (applyFriction defaultConfig slidingBody).velocityX = 6/625 ∧
    |(6/625 : ℚ)| < 1/100 ∧ (6/625 : ℚ) ≠ 0 := by
  refine ⟨?_, ?_, by norm_num⟩
  · rw [applyFriction, if_pos]
    · norm_num [slidingBody, defaultConfig]
    · rw [show slidingBody.velocityX = 3/250 from rfl, abs_of_pos (by norm_num)]
      norm_num
  · rw [abs_of_pos (by norm_num)]
    norm_num

/-- C7 (amended): for every active dynamic body that is grounded during
a tick, the integrator applies friction with the threshold test on the
PRE-scaling velocity: if `|velocityX| > 0.01` the velocity is scaled by
the friction coefficient (even when the scaled result falls below
0.01), otherwise it is set to exactly 0. -/
theorem friction_pre_scale_threshold (cfg : PhysConfig) (dt : ℚ) (c : Collider)
    (hground : c.onGround = true) :
    (1/100 < |c.velocityX| →
      (integrate cfg dt c).velocityX = c.velocityX * cfg.friction) ∧
    (|c.velocityX| ≤ 1/100 → (integrate cfg dt c).velocityX = 0) := by
  constructor
  · intro hthr
    rw [integrate_velocityX_grounded cfg dt c hground, if_pos hthr]
  · intro hthr
    rw [integrate_velocityX_grounded cfg dt c hground, if_neg (not_lt.mpr hthr)]

/-- C7 witness: both branches of the amended friction rule at concrete
inputs — `0.012` scales to `0.012 * 0.8`, `0.01` snaps to `0`. -/
theorem friction_pre_scale_threshold_witness :
    (integrate defaultConfig 1 slidingBody).velocityX =
      slidingBody.velocityX * defaultConfig.friction ∧
    (integrate defaultConfig 1
      ⟨0, 0, 0, 10, 10, 1/100, 0, 0, 0, true, false, 1, 65535, true, true⟩).velocityX = 0 :=
  ⟨(friction_pre_scale_threshold defaultConfig 1 slidingBody rfl).1
      (by rw [show slidingBody.velocityX = 3/250 from rfl, abs_of_pos (by norm_num)]; norm_num),
   (friction_pre_scale_threshold defaultConfig 1
      ⟨0, 0, 0, 10, 10, 1/100, 0, 0, 0, true, false, 1, 65535, true, true⟩ rfl).2
      (by rw [show (⟨0, 0, 0, 10, 10, 1/100, 0, 0, 0, true, false, 1, 65535, true, true⟩ :
          Collider).velocityX = 1/100 from rfl, abs_of_pos (by norm_num)])⟩

/-! ## C9 -/

/-- C9: for every active dynamic body with gravity enabled that is not
grounded, one tick of integration adds `gravity * dt` to `velocityY`
and clamps the result from above at `terminalVelocity`
(`velocityY' = min (velocityY + gravity * dt) terminalVelocity`), so
after the tick `velocityY ≤ terminalVelocity` holds for every `dt` and
every starting velocity, and is preserved by every further tick. -/
theorem gravity_terminal_clamp (cfg : PhysConfig) (dt : ℚ) (c : Collider)
    (hgrav : c.affectedByGravity = true) (hground : c.onGround = false) :
    (integrate cfg dt c).velocityY =
      min (c.velocityY + cfg.gravity * dt) cfg.terminalVelocity ∧
    (integrate cfg dt c).velocityY ≤ cfg.terminalVelocity := by
  have hmain := integrate_velocityY_freefall cfg dt c hgrav hground
  exact ⟨hmain, by rw [hmain]; exact min_le_right _ _⟩

/-- C9 witness: a freefalling body with `velocityY = 9.9` at the default
gravity 0.5 and `dt = 1` is clamped to the terminal-velocity minimum and
stays at most 10. -/
theorem gravity_terminal_clamp_witness :
    (integrate defaultConfig 1
      ⟨0, 0, 0, 10, 10, 0, 99/10, 0, 0, true, false, 1, 65535, true, false⟩).velocityY =
      min ((99/10 : ℚ) + (1/2) * 1) 10 ∧
    (integrate defaultConfig 1
      ⟨0, 0, 0, 10, 10, 0, 99/10, 0, 0, true, false, 1, 65535, true, false⟩).velocityY ≤ 10 :=
  gravity_terminal_clamp defaultConfig 1
    ⟨0, 0, 0, 10, 10, 0, 99/10, 0, 0, true, false, 1, 65535, true, false⟩ rfl rfl

/-! ## C2 -/

/-- C2: the claim is violated by the code.  A horizontal ray at
`y = 100` from `(0, 100)` to `(10, 100)` (normalised direction `(1, 0)`,
length 10) is reported as hitting the box `x ∈ [2, 6]`, `y ∈ [0, 32]`
at distance 2 with "hit point" `(2, 100)` — a point not on the box,
whose extent ends at `y = 32 < 100` — because `raycastCollider` skips
the Y-axis slab entirely when `dirY = 0` instead of rejecting a ray
whose fixed coordinate lies outside the slab. -/
theorem raycast_parallel_ray_phantom_hit :
    raycastAll 0 100 1 0 10 65535 [slabBox] =
      some ⟨slabBox, 2, 2, 100, -1, 0⟩ ∧
    slabBox.y + slabBox.height < 100 := by
  constructor
  · norm_num [raycastAll, raycastCollider, slabBox, land_default_all]
  · norm_num [slabBox]

/-! ## C10 -/

/-- C10: one tick of `Physics.update` leaves every static body and
every inactive body completely unchanged in all fields — the
integrator, resolver and grounding classifier write only to active
dynamic bodies, and an inactive dynamic body is skipped by integration
as well as by detection and resolution. -/
theorem static_inactive_unchanged (cfg : PhysConfig) (dt : ℚ)
    (cs : List Collider) (j : Nat) (c : Collider)
    (h : cs[j]? = some c) (hc : c.isStatic = true ∨ c.active = false) :
    (update cfg dt cs).1[j]? = some c :=
  (updateUpTo_invariant cfg dt cs cs.length).2.2.1 j c h hc

/-! ## C5 -/

/-- C5 (amended): in one tick, callbacks fire once per detection,
immediately after that detection's geometric correction — the snapshots
the callbacks observe are already separated (`checkCollision` is false
on them) — and always from a querying body whose mask matches the other
body's layer (so an asymmetric-mask pair is processed from the querying
body's perspective only); no ordered (querying body, other body) pair
fires twice, but a pair of dynamic bodies can be detected once from
each side — up to twice per tick — when the second body's own
integration re-creates the overlap. -/
theorem callback_events_post_resolution (cfg : PhysConfig) (dt : ℚ)
    (cs : List Collider) :
    ((update cfg dt cs).2.map (fun e => (e.outerIdx, e.innerIdx))).Nodup ∧
    List.Forall (fun e => checkCollision e.aSnap e.bSnap = false ∧
      maskGate e.aSnap e.bSnap = true) (update cfg dt cs).2 := by
  obtain ⟨hprop, hnodup⟩ := updateUpTo_events cfg dt cs cs.length
  refine ⟨hnodup, ?_⟩
  rw [List.forall_iff_forall_mem]
  intro e he
  exact ⟨(hprop e he).2.1, (hprop e he).2.2⟩

/-! ## C3 -/

/-- C3 (amended): at the end of every tick, an active dynamic body has
`onGround = true` exactly when some active STATIC body passing the
layer/mask gate is within the 1-unit vertical tolerance of its bottom
edge with horizontal overlap; the classifier runs unconditionally and
scans only static bodies, so grounding set by the Y-axis-from-above
resolution path against a dynamic supporter does not survive to the
end of the tick. -/
theorem onGround_iff_static_support (cfg : PhysConfig) (dt : ℚ)
    (cs : List Collider) (j : Nat) (c : Collider)
    (h : (update cfg dt cs).1[j]? = some c)
    (hstat : c.isStatic = false) (hact : c.active = true) :
    (c.onGround = true ↔ ∃ s ∈ cs, s.isStatic = true ∧ s.active = true ∧
      maskGate c s = true ∧ checkGrounded c s = true) := by
  rw [show update cfg dt cs = updateUpTo cfg dt cs cs.length from rfl] at h
  obtain ⟨hLen, hRest, hStat, hDyn⟩ := updateUpTo_invariant cfg dt cs cs.length
  have hlt : j < cs.length := by
    have h1 := (List.getElem?_eq_some.mp h).1
    rwa [hLen] at h1
  rcases hc0 : cs[j]? with _ | c0
  · rw [List.getElem?_eq_none_iff] at hc0
    omega
  · rcases hs0 : c0.isStatic with _ | _
    · rcases ha0 : c0.active with _ | _
      · -- an inactive body is unchanged, contradicting `c.active = true`
        have hu := hStat j c0 hc0 (Or.inr ha0)
        rw [h, Option.some.injEq] at hu
        rw [hu, ha0] at hact
        simp at hact
      · -- the body is active dynamic: its final flag is the classifier's
        obtain ⟨_, hog⟩ := hDyn j c0 c hlt hc0 hs0 ha0 h
        rw [hog, groundedFlag, List.any_eq_true]
        constructor
        · rintro ⟨s, hs, hp⟩
          simp only [Bool.and_eq_true] at hp
          exact ⟨s, hs, hp.1.1.1, hp.1.1.2, hp.1.2, hp.2⟩
        · rintro ⟨s, hs, h1, h2, h3, h4⟩
          exact ⟨s, hs, by simp [h1, h2, h3, h4]⟩
    · -- a static body is unchanged, contradicting `c.isStatic = false`
      have hu := hStat j c0 hc0 (Or.inl hs0)
      rw [h, Option.some.injEq] at hu
      rw [hu, hs0] at hstat
      simp at hstat

/-! ## C1 -/

@[simp] lemma normalizeAdd_id (c : Collider) : (normalizeAdd c).id = c.id := rfl

/-- Registering a batch of bodies appends their normalised records in
order: each body is in the collider list the moment `addCollider`
returns. -/
lemma addCollider_foldl (bs : List Collider) :
    ∀ cs : List Collider, bs.foldl addCollider cs = cs ++ bs.map normalizeAdd := by
  induction bs with
  | nil => intro cs; simp
  | cons b bs ih =>
    intro cs
    rw [List.foldl_cons, addCollider, ih]
    simp

/-- Removing the first `pre` registered bodies (distinct identities)
from the list of all registered bodies leaves exactly the rest, in
order — each removal takes effect the moment `removeCollider`
returns. -/
lemma removeCollider_foldl :
    ∀ pre post : List Collider, ((pre ++ post).map Collider.id).Nodup →
      pre.foldl removeCollider ((pre ++ post).map normalizeAdd) =
        post.map normalizeAdd := by
  intro pre
  induction pre with
  | nil => intro post _; simp
  | cons b pre ih =>
    intro post hids
    rw [List.cons_append, List.map_cons, List.foldl_cons, removeCollider,
      List.eraseP_cons_of_pos (by simp)]
    refine ih post ?_
    rw [List.cons_append, List.map_cons] at hids
    exact hids.of_cons

/-- C1 counterexample: with no lifecycle buffer in the engine, ten
`addCollider` calls make ten bodies visible at once (the claim says
zero are visible before a flush), and the five `removeCollider` calls
leave five visible immediately, with no flush ever occurring. -/
theorem addRemove_not_deferred :
    ((List.range 10).foldl (fun s k => addCollider s
        ⟨k, 0, 0, 1, 1, 0, 0, 0, 0, true, false, 1, 65535, true, false⟩) []).length = 10 ∧
    ((List.range 5).foldl (fun s k => removeCollider s
        ⟨k, 0, 0, 1, 1, 0, 0, 0, 0, true, false, 1, 65535, true, false⟩)
      ((List.range 10).foldl (fun s k => addCollider s
        ⟨k, 0, 0, 1, 1, 0, 0, 0, 0, true, false, 1, 65535, true, false⟩) [])).length = 5 := by
  constructor <;> decide

/-- C1 (amended): `addCollider` and `removeCollider` take effect
immediately at call time — there is no pending queue and no flush
operation.  Registering 10 bodies with distinct identities makes all 10
visible to detection and raycasts at once, and then removing the first
5 leaves exactly the other 5 visible at once. -/
theorem addRemove_immediate_visibility (bs : List Collider)
    (hlen : bs.length = 10) (hids : (bs.map Collider.id).Nodup) :
    bs.foldl addCollider [] = bs.map normalizeAdd ∧
    (bs.take 5).foldl removeCollider (bs.foldl addCollider []) =
      (bs.drop 5).map normalizeAdd ∧
    ((bs.take 5).foldl removeCollider (bs.foldl addCollider [])).length = 5 := by
  have h1 : bs.foldl addCollider [] = bs.map normalizeAdd := by
    rw [addCollider_foldl]; simp
  have hsplit : bs.take 5 ++ bs.drop 5 = bs := List.take_append_drop 5 bs
  have h3 := removeCollider_foldl (bs.take 5) (bs.drop 5)
    (by rw [hsplit]; exact hids)
  rw [hsplit] at h3
  refine ⟨h1, by rw [h1]; exact h3, ?_⟩
  rw [h1, h3, List.length_map, List.length_drop, hlen]

/-- Ten bodies with distinct identities for the C1 witness. -/
def regBodies : List Collider :=
  (List.range 10).map
    (fun k => ⟨k, 0, 0, 1, 1, 0, 0, 0, 0, true, false, 1, 65535, true, false⟩)

/-- C1 witness: the amended statement at ten concrete bodies — exactly
five remain visible immediately after the five removals. -/
theorem addRemove_immediate_visibility_witness :
    ((regBodies.take 5).foldl removeCollider
      (regBodies.foldl addCollider [])).length = 5 :=
  (addRemove_immediate_visibility regBodies (by decide) (by decide)).2.2

/-! ## Scenes for the dynamic-pair counterexamples -/

/-- Dynamic body at the origin, at rest, overlapping `probeB`. -/
def probeA : Collider := ⟨0, 0, 0, 10, 10, 0, 0, 0, 0, false, false, 1, 65535, true, false⟩

/-- Dynamic body overlapping `probeA` by 1 unit, moving left so that
its own integration re-creates the overlap after `probeA`'s pass
already resolved the pair. -/
def probeB : Collider := ⟨1, 9, 0, 10, 10, -1, 0, 0, 0, false, false, 1, 65535, true, false⟩

/-- Dynamic body falling onto the dynamic body `fallB`. -/
def fallA : Collider := ⟨0, 0, -62/5, 32, 32, 0, 0, 0, 0, true, false, 1, 65535, true, false⟩

/-- Dynamic body acting as the (dynamic) supporting surface. -/
def fallB : Collider := ⟨1, 0, 20, 32, 32, 0, 0, 0, 0, false, false, 1, 65535, true, false⟩

/-- Dynamic body resting exactly on the static surface `restS`, already
grounded, with `prevX`/`prevY` equal to its position. -/
def restD : Collider := ⟨0, 0, 0, 32, 32, 0, 0, 0, 0, true, false, 1, 65535, true, true⟩

/-- Static 100-wide floor whose top edge carries `restD`. -/
def restS : Collider := ⟨1, 0, 32, 100, 10, 0, 0, 0, 0, false, true, 1, 65535, true, false⟩

/-! ## C5 counterexample -/

/-- C5 counterexample: for the dynamic pair `probeA`/`probeB`, both
bodies' passes detect the pair in the same tick (`probeB` moves back
into `probeA` during its own integration), so the pair's callbacks fire
twice in one tick — refuting "exactly once per detected overlapping
pair per tick". -/
theorem callbacks_twice_per_pair :
    ((update defaultConfig 1 [probeA, probeB]).2.map
      (fun e => (e.outerIdx, e.innerIdx))) = [(0, 1), (1, 0)] := by
  norm_num [update, updateUpTo, tickOne, integrate, applyGravity, applyFriction,
    staticPass, dynamicPass, passStep, groundedFlag, checkCollision, checkGrounded,
    maskGate, resolveCollision, tickBody, tickEvents, defaultConfig, probeA, probeB,
    List.range_succ, List.enum, List.enumFrom, land_all_default, land_default_all]

/-! ## C3 counterexample and witness -/

/-- C3 counterexample: `fallA` lands on the DYNAMIC body `fallB`; the
Y-axis-from-above resolution path grounds it mid-tick (the callback
snapshot has `onGround = true`), but the end-of-tick classifier scans
only static bodies and leaves `onGround = false` — refuting the claimed
agreement when the supporting body is dynamic. -/
theorem dynamic_support_grounding_lost :
    ((update defaultConfig 1 [fallA, fallB]).2.map
      (fun e => e.aSnap.onGround)) = [true] ∧
    ((update defaultConfig 1 [fallA, fallB]).1[0]?.map
      (fun c => c.onGround)) = some false ∧
    fallB.isStatic = false := by
  refine ⟨?_, ?_, rfl⟩ <;>
    norm_num [update, updateUpTo, tickOne, integrate, applyGravity, applyFriction,
      staticPass, dynamicPass, passStep, groundedFlag, checkCollision, checkGrounded,
      maskGate, resolveCollision, tickBody, tickEvents, defaultConfig, fallA, fallB,
      List.range_succ, List.enum, List.enumFrom, land_all_default, land_default_all]

/-- C3 witness: for the body resting on a static floor, the classifier
verdict (via the amended theorem) makes the end-of-tick `onGround`
true. -/
theorem onGround_iff_static_support_witness :
    (update defaultConfig 1 [restD, restS]).1[0]? = some restD ∧
    restD.onGround = true := by
  have hupd : (update defaultConfig 1 [restD, restS]).1[0]? = some restD := by
    norm_num [update, updateUpTo, tickOne, integrate, applyGravity, applyFriction,
      staticPass, dynamicPass, passStep, groundedFlag, checkCollision, checkGrounded,
      maskGate, resolveCollision, tickBody, tickEvents, defaultConfig, restD, restS,
      List.range_succ, List.enum, List.enumFrom, land_all_default, land_default_all]
  refine ⟨hupd, ?_⟩
  exact (onGround_iff_static_support defaultConfig 1 [restD, restS] 0 restD
      hupd rfl rfl).mpr
    ⟨restS, by simp, rfl, rfl,
     by norm_num [maskGate, restD, restS, land_all_default],
     by norm_num [checkGrounded, restD, restS]⟩

/-! ## C10 witness -/

/-- C10 witness: the static floor of the resting scene is exactly
unchanged by a tick. -/
theorem static_inactive_unchanged_witness :
    (update defaultConfig 1 [restD, restS]).1[1]? = some restS :=
  static_inactive_unchanged defaultConfig 1 [restD, restS] 1 restS rfl (Or.inl rfl)

/-! ## C8 -/

/-- Dynamic 10×10 body resting on `overhangS` with only 0.1 unit of
horizontal overlap (an overhang), `onGround` not yet set. -/
def overhangD : Collider := ⟨0, 99/10, 0, 10, 10, 0, 0, 0, 0, true, false, 1, 65535, true, false⟩

/-- Static 10×10 block whose top edge carries `overhangD`. -/
def overhangS : Collider := ⟨1, 0, 10, 10, 10, 0, 0, 0, 0, false, true, 1, 65535, true, false⟩

/-- C8 counterexample: `overhangD` rests exactly on `overhangS`
(`bottom = top`, horizontal overlap, zero velocity) but starts with
`onGround = false`; gravity sinks it by 0.5 in the tick, the horizontal
penetration (0.1) is then smaller than the vertical one (0.5), so
resolution pushes the body SIDEWAYS to `x = 10` and leaves `y = 0.5` —
the position changes, refuting the claim for bodies whose `onGround`
flag is not already set. -/
theorem resting_overhang_moves :
    overhangD.velocityX = 0 ∧ overhangD.velocityY = 0 ∧
    overhangD.y + overhangD.height = overhangS.y ∧
    overhangD.x < overhangS.x + overhangS.width ∧
    overhangS.x < overhangD.x + overhangD.width ∧
    ((update defaultConfig 1 [overhangD, overhangS]).1[0]?.map
      (fun c => (c.x, c.y))) = some (10, 1/2) ∧
    ¬ ((overhangD.x, overhangD.y) = ((10 : ℚ), (1/2 : ℚ))) := by
  refine ⟨rfl, rfl, by norm_num [overhangD, overhangS],
    by norm_num [overhangD, overhangS], by norm_num [overhangD, overhangS],
    ?_, by norm_num [overhangD]⟩
  norm_num [update, updateUpTo, tickOne, integrate, applyGravity, applyFriction,
    staticPass, dynamicPass, passStep, groundedFlag, checkCollision, checkGrounded,
    maskGate, resolveCollision, tickBody, tickEvents, defaultConfig,
    overhangD, overhangS, List.range_succ, List.enum, List.enumFrom,
    land_all_default, land_default_all]

/-- One tick of an already-grounded body resting on a matching static
surface: the body is unchanged except that `prevX`/`prevY` are
refreshed to the current position, and the static body is untouched. -/
lemma resting_tick (cfg : PhysConfig) (dt : ℚ) (d s : Collider)
    (hdstat : d.isStatic = false) (hdact : d.active = true)
    (hgr : d.onGround = true) (hvx : d.velocityX = 0) (hvy : d.velocityY = 0)
    (hrest : d.y + d.height = s.y)
    (hx1 : d.x < s.x + s.width) (hx2 : s.x < d.x + d.width)
    (hsstat : s.isStatic = true) (hsact : s.active = true)
    (hgate : maskGate d s = true) :
    (update cfg dt [d, s]).1 = [{ d with prevX := d.x, prevY := d.y }, s] := by
  obtain ⟨i0, x, y, w, h, vx, vy, px, py, g, st, la, ma, ac, og⟩ := d
  simp only at hdstat hdact hgr hvx hvy hrest hx1 hx2 hgate
  subst hdstat hdact hgr hvx hvy
  simp only [maskGate] at hgate
  norm_num [update, updateUpTo, tickOne, integrate, applyGravity, applyFriction,
    staticPass, dynamicPass, passStep, groundedFlag, checkCollision, checkGrounded,
    maskGate, resolveCollision, tickBody, tickEvents,
    List.range_succ, List.enum, List.enumFrom,
    hrest, hx1, hx2, hsstat, hsact, hgate]

/-- C8 (amended): a dynamic body resting exactly on an active
mask-matching static surface (bottom = top, horizontal overlap, zero
velocity) WHOSE `onGround` FLAG IS ALREADY SET keeps its position
unchanged and its `onGround` flag true after any number of ticks with
any constant `dt`. -/
theorem resting_grounded_fixed_point (cfg : PhysConfig) (dt : ℚ) (d s : Collider)
    (hdstat : d.isStatic = false) (hdact : d.active = true)
    (hgr : d.onGround = true) (hvx : d.velocityX = 0) (hvy : d.velocityY = 0)
    (hrest : d.y + d.height = s.y)
    (hx1 : d.x < s.x + s.width) (hx2 : s.x < d.x + d.width)
    (hsstat : s.isStatic = true) (hsact : s.active = true)
    (hgate : maskGate d s = true) :
    ∀ (n : Nat) (c : Collider), (updateN cfg dt [d, s] n)[0]? = some c →
      c.x = d.x ∧ c.y = d.y ∧ c.onGround = true := by
  have key : ∀ n : Nat, updateN cfg dt [d, s] (n + 1) =
      [{ d with prevX := d.x, prevY := d.y }, s] := by
    intro n
    induction n with
    | zero =>
      show (update cfg dt (updateN cfg dt [d, s] 0)).1 = _
      exact resting_tick cfg dt d s hdstat hdact hgr hvx hvy hrest hx1 hx2
        hsstat hsact hgate
    | succ n ihn =>
      show (update cfg dt (updateN cfg dt [d, s] (n + 1))).1 = _
      rw [ihn]
      exact resting_tick cfg dt { d with prevX := d.x, prevY := d.y } s
        hdstat hdact hgr hvx hvy hrest hx1 hx2 hsstat hsact hgate
  intro n c hc
  cases n with
  | zero =>
    simp only [updateN] at hc
    rw [show (([d, s] : List Collider)[0]? : Option Collider) = some d from rfl,
      Option.some.injEq] at hc
    subst hc
    exact ⟨rfl, rfl, hgr⟩
  | succ n =>
    rw [key n] at hc
    rw [show (([{ d with prevX := d.x, prevY := d.y }, s] :
        List Collider)[0]? : Option Collider) =
        some { d with prevX := d.x, prevY := d.y } from rfl,
      Option.some.injEq] at hc
    subst hc
    exact ⟨rfl, rfl, hgr⟩

/-- The resting scene after one tick: the resting body is returned
bit-for-bit (its `prevX`/`prevY` already equal its position). -/
lemma restScene_tick :
    (update defaultConfig 1 [restD, restS]).1[0]? = some restD := by
  norm_num [update, updateUpTo, tickOne, integrate, applyGravity, applyFriction,
    staticPass, dynamicPass, passStep, groundedFlag, checkCollision, checkGrounded,
    maskGate, resolveCollision, tickBody, tickEvents, defaultConfig, restD, restS,
    List.range_succ, List.enum, List.enumFrom, land_all_default, land_default_all]

/-- C8 witness: the concrete resting body stays in place with
`onGround` true after a tick. -/
theorem resting_grounded_fixed_point_witness :
    ∃ c : Collider, (updateN defaultConfig 1 [restD, restS] 1)[0]? = some c ∧
      c.x = restD.x ∧ c.y = restD.y ∧ c.onGround = true :=
  ⟨restD, restScene_tick,
    resting_grounded_fixed_point defaultConfig 1 restD restS rfl rfl rfl rfl rfl
      (by norm_num [restD, restS]) (by norm_num [restD, restS])
      (by norm_num [restD, restS]) rfl rfl
      (by norm_num [maskGate, restD, restS, land_all_default]) 1 restD
      restScene_tick⟩

